import Mathlib

/-!
Verification development for the sed-loop mutation driver (`src/sed.py`).

The Python source is shallowly embedded: pure text parsing becomes Lean
functions over `List Char`, the filesystem becomes an association list from
paths to file contents, and the external processes (cargo, sed) become an
explicit oracle supplying, per command, an exit status, the filesystem state
the external tool leaves behind, and the diagnostic measurement that
`run_cargo_checks` would report afterwards.
-/

/-! ## Character and string primitives

Python string operations used by `sed.py`, re-expressed structurally over
`List Char`.  Lines never contain a newline once split, so the only
whitespace characters that matter inside a line are the members of
Python's `\s` class. -/

/-- Python's `\s` character class restricted to ASCII (space, tab, newline,
carriage return, vertical tab, form feed). -/
def isPySpace (c : Char) : Bool :=
  c = ' ' || c = '\t' || c = '\n' || c = '\r' || c = '\x0b' || c = '\x0c'

/-- Case-insensitive character comparison against a lowercase pattern
character `c`, as performed by `re.IGNORECASE` on ASCII text: the input
character `x` matches if it is equal to `c`, or if `c` is a lowercase
letter and `x` is its uppercase form. -/
def lowEq (x c : Char) : Bool :=
  x == c || (97 ≤ c.toNat && c.toNat ≤ 122 && x.toNat + 32 == c.toNat)

/-- Consume a case-sensitive literal prefix; return the remaining input on
success. -/
def dropLitCS : List Char → List Char → Option (List Char)
  | [], s => some s
  | _ :: _, [] => none
  | c :: lt, x :: xs => if x = c then dropLitCS lt xs else none

/-- Consume a case-insensitive literal prefix (pattern given in lowercase);
return the remaining input on success. -/
def dropLitCI : List Char → List Char → Option (List Char)
  | [], s => some s
  | _ :: _, [] => none
  | c :: lt, x :: xs => if lowEq x c then dropLitCI lt xs else none

/-- `\s+`: require at least one Python-whitespace character, then consume
the maximal run.  (In every context where `sed.py`'s patterns use `\s+`,
the following pattern element starts with a non-whitespace character, so
the greedy match is the unique viable one.) -/
def ws1 : List Char → Option (List Char)
  | c :: t => if isPySpace c then some (t.dropWhile isPySpace) else none
  | [] => none

/-- Numeric value of an ASCII decimal digit. -/
def digitVal (c : Char) : Option Nat :=
  if 48 ≤ c.toNat ∧ c.toNat ≤ 57 then some (c.toNat - 48) else none

/-- Continue an already-started digit run, accumulating its value. -/
def digitsRest : List Char → Nat → Nat × List Char
  | [], acc => (acc, [])
  | c :: t, acc =>
    match digitVal c with
    | some d => digitsRest t (acc * 10 + d)
    | none => (acc, c :: t)

/-- `(\d+)`: one or more ASCII digits, maximal run, returning the decimal
value.  (In `sed.py`'s patterns `(\d+)` is always followed by `\s+`, so a
shorter backtracked digit run — which would leave a digit, not whitespace,
as the next character — can never succeed.) -/
def digits1 : List Char → Option (Nat × List Char)
  | [] => none
  | c :: t =>
    match digitVal c with
    | some d => some (digitsRest t d)
    | none => none

/-- `.*?` followed by a single literal character `c`: try the continuation
`k` at the earliest occurrence of `c`, falling back to later occurrences if
`k` fails — exactly the lazy-star backtracking order of Python `re`. -/
def searchChar (c : Char) (k : List Char → Option (Nat × Nat)) :
    List Char → Option (Nat × Nat)
  | [] => none
  | x :: t =>
    if x = c then
      match k t with
      | some r => some r
      | none => searchChar c k t
    else searchChar c k t

/-- `.*?` followed by a case-insensitive literal: try the continuation at
the earliest match of the literal, falling back to later matches. -/
def searchLitCI (lit : List Char) (k : List Char → Option (Nat × Nat)) :
    List Char → Option (Nat × Nat)
  | [] =>
    match dropLitCI lit [] with
    | some r => k r
    | none => none
  | x :: t =>
    match dropLitCI lit (x :: t) with
    | some r =>
      match k r with
      | some res => some res
      | none => searchLitCI lit k t
    | none => searchLitCI lit k t

/-- An optional character (`c?` or `[c]?`), preferring to consume it and
backtracking to not consuming it if the continuation fails. -/
def optCI (c : Char) (k : List Char → Option (Nat × Nat)) (s : List Char) :
    Option (Nat × Nat) :=
  match s with
  | [] => k []
  | x :: t =>
    if lowEq x c then
      match k t with
      | some r => some r
      | none => k (x :: t)
    else k (x :: t)

/-! ## The diagnostic parser (`parse_cargo_output`, sed.py lines 29-74) -/

/-- The `compile_fail_pattern` regex of sed.py line 43, applied with
`.match` (anchored at the start of the line) under `re.IGNORECASE`:

`^error:\s+could not compile ` + backtick + `.*?` + backtick +
`.*?due to\s+(\d+)\s+previous error[s]?;?\s+(\d+)\s+warnings? emitted`

Returns the two captured counts on success. -/
def compileFailMatch (line : List Char) : Option (Nat × Nat) :=
  (dropLitCI (("error:").data) line).bind fun s1 =>
  (ws1 s1).bind fun s2 =>
  (dropLitCI (("could not compile `").data) s2).bind fun s3 =>
  searchChar '`'
    (fun s4 =>
      searchLitCI (("due to").data)
        (fun s5 =>
          (ws1 s5).bind fun s6 =>
          (digits1 s6).bind fun ns =>
          (ws1 ns.2).bind fun s8 =>
          (dropLitCI (("previous error").data) s8).bind fun s9 =>
          optCI 's'
            (fun s10 =>
              optCI ';'
                (fun s11 =>
                  (ws1 s11).bind fun s12 =>
                  (digits1 s12).bind fun ms =>
                  (ws1 ms.2).bind fun s14 =>
                  (dropLitCI (("warning").data) s14).bind fun s15 =>
                  optCI 's'
                    (fun s16 =>
                      (dropLitCI ((" emitted").data) s16).map fun _ =>
                        (ns.1, ms.1))
                    s15)
                s10)
            s9)
        s4)
    s3

/-- The `individual_error_pattern` / `individual_warning_pattern` regexes of
sed.py lines 47-48, `^\s*KW\s+(?!\[E)` (case-sensitive), applied with
`.search`.  Since `^` anchors at the string start (no `re.MULTILINE`), this
is a match at the start of the line: optional leading whitespace, the
keyword, then at least one whitespace character positioned so that the rest
of the line does not begin with `[E`.  With `k` whitespace characters after
the keyword the lookahead can be placed after any `j ∈ [1, k]` of them, so
the pattern succeeds iff `k ≥ 1` and (`k ≥ 2` or the text after the
whitespace does not start with `[E`). -/
def indivMatch (kw : List Char) (line : List Char) : Bool :=
  match dropLitCS kw (line.dropWhile isPySpace) with
  | none => false
  | some rest =>
    let k := (rest.takeWhile isPySpace).length
    decide (1 ≤ k) &&
      (decide (2 ≤ k) ||
        !((dropLitCS (("[E").data) (rest.dropWhile isPySpace)).isSome))

/-- Split a string's characters into lines at newline characters
(Python `str.splitlines` for `\n`-separated text; a trailing empty line
contributes nothing to any count). -/
def splitLinesAux : List Char → List Char → List (List Char)
  | [], acc => [acc.reverse]
  | c :: t, acc =>
    if c = '\n' then acc.reverse :: splitLinesAux t []
    else splitLinesAux t (c :: acc)

/-- All lines of a string. -/
def splitLines (s : List Char) : List (List Char) :=
  splitLinesAux s []

/-- `parse_cargo_output` (sed.py lines 29-74): scan the output line by
line; a line matching the compile-failure summary adds its two captured
counts and is then skipped (`continue`); otherwise a line matching the
individual error pattern adds one error and a line matching the individual
warning pattern adds one warning. -/
def parse_cargo_output (output : String) : Nat × Nat :=
  (splitLines output.data).foldl
    (fun acc line =>
      match compileFailMatch line with
      | some nm => (acc.1 + nm.1, acc.2 + nm.2)
      | none =>
        let e := if indivMatch (("error:").data) line then acc.1 + 1 else acc.1
        let w := if indivMatch (("warning:").data) line then acc.2 + 1 else acc.2
        (e, w))
    (0, 0)

/-! ## Filesystem model

The working tree is a finite map from paths to file contents, represented
as an association list (first match wins on lookup).  Paths are character
lists, exactly the tokens `sed.py` splits out of a command string. -/

/-- A file path. -/
abbrev FsPath := List Char

/-- A directory of files: association from path to content. -/
abbrev Fs := List (FsPath × String)

/-- Look up the content of a file; `none` when the path does not exist
(`os.path.exists` returns false). -/
def fsLookup (fs : Fs) (p : FsPath) : Option String :=
  match fs with
  | [] => none
  | (q, c) :: t => if q = p then some c else fsLookup t p

/-- Write (create or overwrite) one file, as `shutil.copy` does at its
destination. -/
def fsWrite (fs : Fs) (p : FsPath) (c : String) : Fs :=
  match fs with
  | [] => [(p, c)]
  | (q, d) :: t => if q = p then (p, c) :: t else (q, d) :: fsWrite t p c

/-- `shutil.copytree(src, dst, dirs_exist_ok=True)`: the destination ends
up holding every file of `src` (source content winning) plus the files of
`dst` that `src` does not provide. -/
def copytree (src dst : Fs) : Fs :=
  src ++ dst.filter (fun e => (fsLookup src e.1).isNone)

/-- `backup_directory` (sed.py lines 91-101): copy the whole source
directory into the backup directory. -/
def backup_directory (source_dir backup_dir : Fs) : Fs :=
  copytree source_dir backup_dir

/-- The deletion loop of `restore_directory` (sed.py lines 113-118):
remove every item currently in the source directory. -/
def clearDir (_source_dir : Fs) : Fs :=
  []

/-- `restore_directory` (sed.py lines 103-121): delete every item of the
source directory, then copy the backup contents back over it. -/
def restore_directory (backup_dir source_dir : Fs) : Fs :=
  copytree backup_dir (clearDir source_dir)

/-- `os.path.basename`: the final path component after the last slash. -/
def basenameAux : FsPath → FsPath → FsPath
  | [], acc => acc.reverse
  | c :: t, acc => if c = '/' then basenameAux t [] else basenameAux t (c :: acc)

/-- `os.path.basename` of a path. -/
def basename (p : FsPath) : FsPath :=
  basenameAux p []

/-! ## Target-file discovery (sed.py lines 169-183) -/

/-- Python `str.split()` with no argument: split on runs of whitespace,
discarding empty tokens. -/
def splitWsAux : List Char → List Char → List FsPath
  | [], acc => if acc.isEmpty then [] else [acc.reverse]
  | c :: t, acc =>
    if isPySpace c then
      if acc.isEmpty then splitWsAux t [] else acc.reverse :: splitWsAux t []
    else splitWsAux t (c :: acc)

/-- All whitespace-delimited tokens of a command string. -/
def splitWs (s : List Char) : List FsPath :=
  splitWsAux s []

/-- Python `part.rstrip(',;')`: drop trailing commas and semicolons. -/
def rstripPunct (p : FsPath) : FsPath :=
  (p.reverse.dropWhile (fun c => c = ',' || c = ';')).reverse

/-- Target-file extraction (sed.py lines 170-179): every whitespace-split
token of the command whose comma/semicolon-stripped form names an existing
file, in order of appearance. -/
def targetsOf (fs : Fs) (cmd : List Char) : List FsPath :=
  ((splitWs cmd).map rstripPunct).filter (fun pc => (fsLookup fs pc).isSome)

/-! ## Diagnostic measurements and the per-command loop -/

/-- One `run_cargo_checks` result (sed.py lines 76-89): error and warning
counts for the check channel and the test channel. -/
structure Measurement where
  checkErrors : Nat
  checkWarnings : Nat
  testErrors : Nat
  testWarnings : Nat
deriving DecidableEq

/-- What the external world does for one command: the exit status of the
sed invocation, the filesystem contents after that invocation (the external
tool may rewrite files even when it fails), and the measurement
`run_cargo_checks` reports afterwards. -/
structure CmdIO where
  retcode : Nat
  fsAfter : Fs
  meas : Measurement
deriving DecidableEq

/-- The outcome recorded for one command of the loop. -/
inductive Event where
  | skippedNoTargets
  | applyFailed
  | reverted (m : Measurement)
  | accepted (m : Measurement)
deriving DecidableEq

/-- The revert test of sed.py lines 209 and 229:
`new_check_errors > initial_check_errors or new_test_errors > initial_test_errors`.
Note that both comparisons are against the INITIAL measurement. -/
def decideMeas (init m : Measurement) : Bool :=
  decide (init.checkErrors < m.checkErrors) ||
    decide (init.testErrors < m.testErrors)

/-- The per-command backup (sed.py lines 185-189): copy each target file
into the shared temporary directory keyed by its basename. -/
def writeBackups (fs tmp : Fs) (targets : List FsPath) : Fs :=
  targets.foldl
    (fun t tgt => fsWrite t (basename tgt) ((fsLookup fs tgt).getD "")) tmp

/-- The per-command restore (sed.py lines 212-213): copy each backup file
back over its target path. -/
def restoreFromBackups (tmp fsCur : Fs) (targets : List FsPath) : Fs :=
  targets.foldl
    (fun f tgt => fsWrite f tgt ((fsLookup tmp (basename tgt)).getD "")) fsCur

/-- One iteration of the command loop (sed.py lines 166-219), acting on the
pair (working tree, shared temporary backup directory):
no existing target file → skip; sed exits nonzero → skip, keeping whatever
the tool left on disk; otherwise re-measure and revert the target files
exactly when a channel's error count exceeds the initial baseline's. -/
def processOne (init : Measurement) (st : Fs × Fs) (ci : (List Char) × CmdIO) :
    (Fs × Fs) × Event :=
  let targets := targetsOf st.1 ci.1
  if targets = [] then (st, Event.skippedNoTargets)
  else
    let tmpNew := writeBackups st.1 st.2 targets
    if ci.2.retcode ≠ 0 then ((ci.2.fsAfter, tmpNew), Event.applyFailed)
    else if decideMeas init ci.2.meas then
      ((restoreFromBackups tmpNew ci.2.fsAfter targets, tmpNew),
        Event.reverted ci.2.meas)
    else ((ci.2.fsAfter, tmpNew), Event.accepted ci.2.meas)

/-- The whole command loop, also returning the list of per-command
outcomes in order. -/
def processCommands (init : Measurement) :
    List ((List Char) × CmdIO) → (Fs × Fs) → ((Fs × Fs) × List Event)
  | [], st => (st, [])
  | ci :: rest, st =>
    let r1 := processOne init st ci
    let r2 := processCommands init rest r1.1
    (r2.1, r1.2 :: r2.2)

/-- The observable result of a whole run. -/
structure RunResult where
  finalFs : Fs
  events : List Event
  rolledBack : Bool
deriving DecidableEq

/-- `process_sed_commands` (sed.py lines 123-237) as a function of the
initial tree `fs0`, the command list, the external behavior of each
command, and the initial and final `run_cargo_checks` measurements:
take the run-level backup, run the loop with an empty shared temporary
directory, then re-measure and restore the whole tree from the run-level
backup exactly when a channel's final error count exceeds the initial
one. -/
def process_sed_commands (fs0 : Fs) (cmds : List (List Char))
    (ios : List CmdIO) (initMeas finalMeas : Measurement) : RunResult :=
  let initialBackup := backup_directory fs0 []
  let r := processCommands initMeas (cmds.zip ios) (fs0, [])
  let rollback := decideMeas initMeas finalMeas
  { finalFs :=
      if rollback then restore_directory initialBackup r.1.1 else r.1.1
    events := r.2
    rolledBack := rollback }

/-! ## Observation functions used in claim statements -/

/-- A per-command decision outcome with its measurement erased: used to
compare the decision sequences of two runs. -/
inductive EventKind where
  | skip
  | fail
  | rev
  | acc
deriving DecidableEq

/-- The kind of an event. -/
def eventKind : Event → EventKind
  | Event.skippedNoTargets => EventKind.skip
  | Event.applyFailed => EventKind.fail
  | Event.reverted _ => EventKind.rev
  | Event.accepted _ => EventKind.acc

/-- Follows the spec's words: "the error count ... measured immediately
before that command" — the most recent diagnostic measurement taken during
a run prefix (the post-measurement of the last command that was measured,
whether accepted or reverted; the initial measurement when none was). -/
def specLastMeasurement (init : Measurement) (evs : List Event) : Measurement :=
  evs.foldl
    (fun acc e =>
      match e with
      | Event.accepted m => m
      | Event.reverted m => m
      | _ => acc)
    init

/-- Follows the spec's words: "RunningBaseline: the most recently accepted
diagnostic measurement, used as the comparison point for the next
command". -/
def specRunningBaseline (init : Measurement) (evs : List Event) : Measurement :=
  evs.foldl
    (fun acc e =>
      match e with
      | Event.accepted m => m
      | _ => acc)
    init

/-- Agreement of two per-command oracles on everything except warning
counts: same exit status, same filesystem effect, same error counts. -/
def ioAgrees (a b : CmdIO) : Prop :=
  a.retcode = b.retcode ∧ a.fsAfter = b.fsAfter ∧
    a.meas.checkErrors = b.meas.checkErrors ∧
    a.meas.testErrors = b.meas.testErrors

/-- A concrete two-command run: the initial baseline has 5 check errors;
the first command is accepted with 3 check errors, then the second is also
accepted although its post-measurement is back up to 5 (5 does not exceed
the INITIAL baseline, which is all the code compares against). -/
def exRunC1 : RunResult :=
  process_sed_commands ([(("f.rs").data, "a")])
    ([("c f.rs").data, ("c f.rs").data])
    ([⟨0, [(("f.rs").data, "b")], ⟨3, 0, 5, 0⟩⟩,
      ⟨0, [(("f.rs").data, "c")], ⟨5, 0, 5, 0⟩⟩])
    ⟨5, 0, 5, 0⟩ ⟨5, 0, 5, 0⟩

/-- A concrete three-command run: baseline 4 check errors; command one
accepted at 2, command two reverted at 9, command three accepted at 4 —
above the most recently accepted measurement (2) but not above the initial
baseline (4). -/
def exRunC2 : RunResult :=
  process_sed_commands ([(("g.rs").data, "x")])
    ([("c g.rs").data, ("c g.rs").data, ("c g.rs").data])
    ([⟨0, [(("g.rs").data, "y")], ⟨2, 0, 4, 0⟩⟩,
      ⟨0, [(("g.rs").data, "z")], ⟨9, 0, 4, 0⟩⟩,
      ⟨0, [(("g.rs").data, "w")], ⟨4, 0, 4, 0⟩⟩])
    ⟨4, 0, 4, 0⟩ ⟨4, 0, 4, 0⟩

/-! ## Basic lemmas about the loop -/

theorem mem_of_get_eq_some {α : Type} :
    ∀ {l : List α} {k : Nat} {a : α}, l.get? k = some a → a ∈ l := by
  intro l
  induction l with
  | nil => intro k a h; simp [List.get?] at h
  | cons x xs ih =>
    intro k a h
    cases k with
    | zero =>
      simp only [List.get?] at h
      simp [Option.some.inj h]
    | succ n =>
      simp only [List.get?] at h
      exact List.mem_cons_of_mem x (ih h)

/-- If an iteration reports `accepted m`, then `m` is the command's
post-measurement and it passed the (initial-baseline) revert test. -/
theorem processOne_accepted (init : Measurement) (st : Fs × Fs)
    (ci : (List Char) × CmdIO) (m : Measurement)
    (h : (processOne init st ci).2 = Event.accepted m) :
    m = ci.2.meas ∧ decideMeas init m = false := by
  by_cases h1 : targetsOf st.1 ci.1 = []
  · simp [processOne, h1] at h
  · by_cases h2 : ci.2.retcode ≠ 0
    · simp [processOne, h1, h2] at h
    · by_cases h3 : decideMeas init ci.2.meas
      · simp [processOne, h1, h2, h3] at h
      · simp [processOne, h1, h2, h3] at h
        subst h
        exact ⟨rfl, by simpa using h3⟩

/-- If an iteration reports `reverted m`, then `m` is the command's
post-measurement and it failed the (initial-baseline) revert test. -/
theorem processOne_reverted (init : Measurement) (st : Fs × Fs)
    (ci : (List Char) × CmdIO) (m : Measurement)
    (h : (processOne init st ci).2 = Event.reverted m) :
    m = ci.2.meas ∧ decideMeas init m = true := by
  by_cases h1 : targetsOf st.1 ci.1 = []
  · simp [processOne, h1] at h
  · by_cases h2 : ci.2.retcode ≠ 0
    · simp [processOne, h1, h2] at h
    · by_cases h3 : decideMeas init ci.2.meas
      · simp [processOne, h1, h2, h3] at h
        subst h
        exact ⟨rfl, by simpa using h3⟩
      · simp [processOne, h1, h2, h3] at h

/-- Every event the loop emits was decided against the INITIAL baseline:
an accepted measurement passes `decideMeas initMeas`, a reverted one fails
it. -/
theorem processCommands_sound (init : Measurement) :
    ∀ (l : List ((List Char) × CmdIO)) (st : Fs × Fs) (e : Event),
      e ∈ (processCommands init l st).2 →
      (∀ m, e = Event.accepted m → decideMeas init m = false) ∧
      (∀ m, e = Event.reverted m → decideMeas init m = true) := by
  intro l
  induction l with
  | nil => intro st e he; simp [processCommands] at he
  | cons ci rest ih =>
    intro st e he
    simp only [processCommands] at he
    rcases List.mem_cons.mp he with h1 | h2
    · constructor
      · intro m hm
        exact (processOne_accepted init st ci m (h1.symm.trans hm)).2
      · intro m hm
        exact (processOne_reverted init st ci m (h1.symm.trans hm)).2
    · exact ih _ _ h2

/-- The events of a whole run are exactly the events of the loop. -/
theorem process_sed_commands_events (fs0 : Fs) (cmds : List (List Char))
    (ios : List CmdIO) (initMeas finalMeas : Measurement) :
    (process_sed_commands fs0 cmds ios initMeas finalMeas).events =
      (processCommands initMeas (cmds.zip ios) (fs0, [])).2 := rfl

/-- `decideMeas init m = false` unfolded to the two per-channel bounds. -/
theorem decideMeas_false_iff (init m : Measurement) :
    decideMeas init m = false ↔
      m.checkErrors ≤ init.checkErrors ∧ m.testErrors ≤ init.testErrors := by
  simp [decideMeas]

/-- One iteration is insensitive to warning counts: oracles agreeing on
exit status, filesystem effect and error counts yield the same successor
state and the same decision kind, for baselines agreeing on error
counts. -/
theorem processOne_agree (init initB : Measurement) (st : Fs × Fs)
    (cmd : List Char) (io ioB : CmdIO)
    (hi : init.checkErrors = initB.checkErrors ∧
          init.testErrors = initB.testErrors)
    (hio : ioAgrees io ioB) :
    (processOne init st (cmd, io)).1 = (processOne initB st (cmd, ioB)).1 ∧
    eventKind (processOne init st (cmd, io)).2 =
      eventKind (processOne initB st (cmd, ioB)).2 := by
  obtain ⟨hr, hf, hc, ht⟩ := hio
  have hdm : decideMeas init io.meas = decideMeas initB ioB.meas := by
    simp [decideMeas, hi.1, hi.2, hc, ht]
  by_cases h1 : targetsOf st.1 cmd = []
  · simp [processOne, h1]
  · by_cases h2 : io.retcode ≠ 0
    · have h2B : ioB.retcode ≠ 0 := by rw [← hr]; exact h2
      simp [processOne, h1, h2, h2B, hf]
    · have h2B : ¬ ioB.retcode ≠ 0 := by rw [← hr]; exact h2
      by_cases h3 : decideMeas init io.meas
      · have h3B : decideMeas initB ioB.meas = true := by rw [← hdm]; exact h3
        simp [processOne, h1, h2, h2B, h3, h3B, hf, eventKind]
      · have h3B : decideMeas initB ioB.meas = false := by
          rw [← hdm]; simpa using h3
        simp [processOne, h1, h2, h2B, h3, h3B, hf, eventKind]

/-- The whole loop is insensitive to warning counts: pointwise-agreeing
oracles yield the same final state and the same decision-kind sequence. -/
theorem processCommands_agree (init initB : Measurement)
    (hi : init.checkErrors = initB.checkErrors ∧
          init.testErrors = initB.testErrors) :
    ∀ (cmds : List (List Char)) (ios iosB : List CmdIO) (st : Fs × Fs),
      List.Forall₂ ioAgrees ios iosB →
      (processCommands init (cmds.zip ios) st).1 =
        (processCommands initB (cmds.zip iosB) st).1 ∧
      (processCommands init (cmds.zip ios) st).2.map eventKind =
        (processCommands initB (cmds.zip iosB) st).2.map eventKind := by
  intro cmds
  induction cmds with
  | nil => intro ios iosB st hF; simp [processCommands]
  | cons c cs ih =>
    intro ios iosB st hF
    cases hF with
    | nil => simp [processCommands]
    | cons hab htail =>
      rename_i a b as bs
      simp only [List.zip_cons_cons, processCommands, List.map_cons]
      obtain ⟨hst, hev⟩ := processOne_agree init initB st c a b hi hab
      rw [← hst]
      obtain ⟨ih1, ih2⟩ := ih as bs (processOne init st (c, a)).1 htail
      simp only [List.zip] at ih1 ih2
      exact ⟨ih1, by rw [hev, ih2]⟩

/-! ## Claim C1 -/

/-- C1 counterexample: the claim "an accepted command never increases any
channel's error count relative to the measurement that directly preceded
it" is FALSE.  In `exRunC1` the second command is accepted with 5 check
errors although the measurement immediately before it (the first command's
post-measurement) reported only 3: the code compares against the initial
measurement, not the preceding one. -/
theorem C1_running_comparison_fails :
    exRunC1.events.get? 1 = some (Event.accepted ⟨5, 0, 5, 0⟩) ∧
    (specLastMeasurement ⟨5, 0, 5, 0⟩ (exRunC1.events.take 1)).checkErrors = 3 ∧
    (specLastMeasurement ⟨5, 0, 5, 0⟩ (exRunC1.events.take 1)).checkErrors <
      (Measurement.mk 5 0 5 0).checkErrors := by decide

/-- C1 (amended): an accepted command's post-measurement error counts never
exceed the per-channel error counts of the INITIAL pre-run measurement —
the fixed comparison point the code actually uses (sed.py line 209). -/
theorem C1_accepted_bounded_by_initial (fs0 : Fs) (cmds : List (List Char))
    (ios : List CmdIO) (initMeas finalMeas : Measurement) (k : Nat)
    (m : Measurement)
    (h : (process_sed_commands fs0 cmds ios initMeas finalMeas).events.get? k
        = some (Event.accepted m)) :
    m.checkErrors ≤ initMeas.checkErrors ∧
      m.testErrors ≤ initMeas.testErrors := by
  rw [process_sed_commands_events] at h
  have hm := mem_of_get_eq_some h
  exact (decideMeas_false_iff initMeas m).mp
    ((processCommands_sound initMeas _ _ _ hm).1 m rfl)

/-- Witness for C1 (amended) at the first accepted command of `exRunC1`. -/
theorem C1_accepted_bounded_by_initial_witness :
    (Measurement.mk 3 0 5 0).checkErrors ≤ (Measurement.mk 5 0 5 0).checkErrors ∧
    (Measurement.mk 3 0 5 0).testErrors ≤ (Measurement.mk 5 0 5 0).testErrors :=
  C1_accepted_bounded_by_initial ([(("f.rs").data, "a")])
    ([("c f.rs").data, ("c f.rs").data])
    ([⟨0, [(("f.rs").data, "b")], ⟨3, 0, 5, 0⟩⟩,
      ⟨0, [(("f.rs").data, "c")], ⟨5, 0, 5, 0⟩⟩])
    ⟨5, 0, 5, 0⟩ ⟨5, 0, 5, 0⟩ 0 ⟨3, 0, 5, 0⟩ (by decide)

/-! ## Claim C2 -/

/-- C2 counterexample: the claim that each decision "compares the new
measurement against the most recently accepted measurement" is FALSE.  In
`exRunC2` the third command is accepted with 4 check errors although the
most recently accepted measurement (the RunningBaseline of the spec)
reported only 2: no running baseline exists in the code. -/
theorem C2_running_baseline_fails :
    exRunC2.events.get? 2 = some (Event.accepted ⟨4, 0, 4, 0⟩) ∧
    (specRunningBaseline ⟨4, 0, 4, 0⟩ (exRunC2.events.take 2)).checkErrors = 2 ∧
    (specRunningBaseline ⟨4, 0, 4, 0⟩ (exRunC2.events.take 2)).checkErrors <
      (Measurement.mk 4 0 4 0).checkErrors := by decide

/-- C2 (amended): every per-command decision compares the new measurement
against the ORIGINAL pre-run measurement via the revert test `decideMeas`:
accepted commands pass it, reverted commands fail it; the comparison point
never mutates. -/
theorem C2_decision_uses_initial_baseline (fs0 : Fs) (cmds : List (List Char))
    (ios : List CmdIO) (initMeas finalMeas : Measurement) (k : Nat)
    (m : Measurement) :
    ((process_sed_commands fs0 cmds ios initMeas finalMeas).events.get? k
        = some (Event.accepted m) → decideMeas initMeas m = false) ∧
    ((process_sed_commands fs0 cmds ios initMeas finalMeas).events.get? k
        = some (Event.reverted m) → decideMeas initMeas m = true) := by
  constructor
  · intro h
    rw [process_sed_commands_events] at h
    exact (processCommands_sound initMeas _ _ _ (mem_of_get_eq_some h)).1 m rfl
  · intro h
    rw [process_sed_commands_events] at h
    exact (processCommands_sound initMeas _ _ _ (mem_of_get_eq_some h)).2 m rfl

/-- Witness for C2 (amended) at the accepted first and reverted second
commands of `exRunC2`. -/
theorem C2_decision_uses_initial_baseline_witness :
    decideMeas ⟨4, 0, 4, 0⟩ ⟨2, 0, 4, 0⟩ = false ∧
    decideMeas ⟨4, 0, 4, 0⟩ ⟨9, 0, 4, 0⟩ = true :=
  ⟨(C2_decision_uses_initial_baseline ([(("g.rs").data, "x")])
      ([("c g.rs").data, ("c g.rs").data, ("c g.rs").data])
      ([⟨0, [(("g.rs").data, "y")], ⟨2, 0, 4, 0⟩⟩,
        ⟨0, [(("g.rs").data, "z")], ⟨9, 0, 4, 0⟩⟩,
        ⟨0, [(("g.rs").data, "w")], ⟨4, 0, 4, 0⟩⟩])
      ⟨4, 0, 4, 0⟩ ⟨4, 0, 4, 0⟩ 0 ⟨2, 0, 4, 0⟩).1 (by decide),
   (C2_decision_uses_initial_baseline ([(("g.rs").data, "x")])
      ([("c g.rs").data, ("c g.rs").data, ("c g.rs").data])
      ([⟨0, [(("g.rs").data, "y")], ⟨2, 0, 4, 0⟩⟩,
        ⟨0, [(("g.rs").data, "z")], ⟨9, 0, 4, 0⟩⟩,
        ⟨0, [(("g.rs").data, "w")], ⟨4, 0, 4, 0⟩⟩])
      ⟨4, 0, 4, 0⟩ ⟨4, 0, 4, 0⟩ 1 ⟨9, 0, 4, 0⟩).2 (by decide)⟩

/-! ## Claim C3 -/

/-- C3: after all commands, if the post-run error total (across both
channels) exceeds the pre-run total, the run is rolled back and the final
tree equals the pre-run snapshot file-by-file — for EVERY command list and
every per-command oracle, i.e. independently of the per-command
decisions. -/
theorem C3_whole_run_safety_net (fs0 : Fs) (cmds : List (List Char))
    (ios : List CmdIO) (initMeas finalMeas : Measurement)
    (h : initMeas.checkErrors + initMeas.testErrors <
         finalMeas.checkErrors + finalMeas.testErrors) :
    (process_sed_commands fs0 cmds ios initMeas finalMeas).rolledBack = true ∧
    ∀ p, fsLookup
        (process_sed_commands fs0 cmds ios initMeas finalMeas).finalFs p
      = fsLookup fs0 p := by
  have hd : decideMeas initMeas finalMeas = true := by
    simp only [decideMeas, Bool.or_eq_true, decide_eq_true_eq]
    omega
  constructor
  · simp [process_sed_commands, hd]
  · intro p
    simp [process_sed_commands, hd, restore_directory, backup_directory,
      copytree, clearDir]

/-- Witness for C3 at an empty command list with error total rising from 0
to 1. -/
theorem C3_whole_run_safety_net_witness :
    (process_sed_commands ([(("f.rs").data, "a")]) ([]) ([])
        ⟨0, 0, 0, 0⟩ ⟨1, 0, 0, 0⟩).rolledBack = true ∧
    fsLookup (process_sed_commands ([(("f.rs").data, "a")]) ([]) ([])
        ⟨0, 0, 0, 0⟩ ⟨1, 0, 0, 0⟩).finalFs (("f.rs").data)
      = fsLookup ([(("f.rs").data, "a")]) (("f.rs").data) := by
  have h := C3_whole_run_safety_net ([(("f.rs").data, "a")]) ([]) ([])
    ⟨0, 0, 0, 0⟩ ⟨1, 0, 0, 0⟩ (by decide)
  exact ⟨h.1, h.2 (("f.rs").data)⟩

/-! ## Claim C4 -/

/-- C4 counterexample: the claim "a command with no improvement and no
regression is REVERTED" is FALSE.  A command whose post-measurement equals
the baseline in every error and warning count is ACCEPTED (kept), because
the code's only revert condition is a per-channel error increase
(sed.py lines 209-215). -/
theorem C4_unchanged_command_not_reverted :
    (processOne ⟨2, 1, 2, 1⟩ ([(("f.rs").data, "x")], [])
        (("c f.rs").data, ⟨0, [(("f.rs").data, "y")], ⟨2, 1, 2, 1⟩⟩)).2
      = Event.accepted ⟨2, 1, 2, 1⟩ ∧
    (processOne ⟨2, 1, 2, 1⟩ ([(("f.rs").data, "x")], [])
        (("c f.rs").data, ⟨0, [(("f.rs").data, "y")], ⟨2, 1, 2, 1⟩⟩)).2
      ≠ Event.reverted ⟨2, 1, 2, 1⟩ := by decide

/-- C4 (amended): a command whose post-measurement exactly equals the
baseline (no improvement, no regression in any channel) is KEPT: the event
is `accepted` and the working tree keeps the change the command made. -/
theorem C4_no_net_value_kept (init : Measurement) (st : Fs × Fs)
    (cmd : List Char) (io : CmdIO)
    (h1 : targetsOf st.1 cmd ≠ []) (h2 : io.retcode = 0)
    (h3 : io.meas = init) :
    (processOne init st (cmd, io)).2 = Event.accepted init ∧
    (processOne init st (cmd, io)).1.1 = io.fsAfter := by
  have hd : decideMeas init init = false := by
    simp [decideMeas]
  simp [processOne, h1, h2, hd, h3]

/-- Witness for C4 (amended) at a concrete unchanged measurement. -/
theorem C4_no_net_value_kept_witness :
    (processOne ⟨3, 2, 1, 0⟩ ([(("h.rs").data, "x")], [])
        (("c h.rs").data, ⟨0, [(("h.rs").data, "y")], ⟨3, 2, 1, 0⟩⟩)).2
      = Event.accepted ⟨3, 2, 1, 0⟩ ∧
    (processOne ⟨3, 2, 1, 0⟩ ([(("h.rs").data, "x")], [])
        (("c h.rs").data, ⟨0, [(("h.rs").data, "y")], ⟨3, 2, 1, 0⟩⟩)).1.1
      = [(("h.rs").data, "y")] :=
  C4_no_net_value_kept ⟨3, 2, 1, 0⟩ ([(("h.rs").data, "x")], [])
    (("c h.rs").data) ⟨0, [(("h.rs").data, "y")], ⟨3, 2, 1, 0⟩⟩
    (by decide) rfl rfl

/-! ## Claim C5 -/

/-- C5 counterexample: the claim that a drop of a channel's error count by
more than 8 and more than half its pre-change value is treated as anomalous
and REVERTED is FALSE.  A command dropping check errors from 10 to 1
(difference 9, exceeding both thresholds) is ACCEPTED: no
anomalous-improvement guard exists in the code. -/
theorem C5_no_anomaly_guard :
    (processOne ⟨10, 0, 0, 0⟩ ([(("f.rs").data, "x")], [])
        (("c f.rs").data, ⟨0, [(("f.rs").data, "y")], ⟨1, 0, 0, 0⟩⟩)).2
      = Event.accepted ⟨1, 0, 0, 0⟩ ∧
    8 < (Measurement.mk 10 0 0 0).checkErrors -
        (Measurement.mk 1 0 0 0).checkErrors ∧
    (Measurement.mk 10 0 0 0).checkErrors / 2 <
      (Measurement.mk 10 0 0 0).checkErrors -
        (Measurement.mk 1 0 0 0).checkErrors ∧
    (processOne ⟨10, 0, 0, 0⟩ ([(("f.rs").data, "x")], [])
        (("c f.rs").data, ⟨0, [(("f.rs").data, "y")], ⟨1, 0, 0, 0⟩⟩)).2
      ≠ Event.reverted ⟨1, 0, 0, 0⟩ := by decide

/-- C5 (amended): a command whose error reduction exceeds both the absolute
threshold 8 and half the pre-change error count is nevertheless ACCEPTED
whenever no channel's errors increase: the code has no
anomalous-improvement guard. -/
theorem C5_anomalous_improvement_kept (init : Measurement) (st : Fs × Fs)
    (cmd : List Char) (io : CmdIO)
    (h1 : targetsOf st.1 cmd ≠ []) (h2 : io.retcode = 0)
    (_h3 : 8 < init.checkErrors - io.meas.checkErrors)
    (_h4 : init.checkErrors / 2 < init.checkErrors - io.meas.checkErrors)
    (h5 : io.meas.checkErrors ≤ init.checkErrors)
    (h6 : io.meas.testErrors ≤ init.testErrors) :
    (processOne init st (cmd, io)).2 = Event.accepted io.meas := by
  have hd : decideMeas init io.meas = false :=
    (decideMeas_false_iff init io.meas).mpr ⟨h5, h6⟩
  simp [processOne, h1, h2, hd]

/-- Witness for C5 (amended) at the 10-errors-to-1 instance. -/
theorem C5_anomalous_improvement_kept_witness :
    (processOne ⟨10, 0, 0, 0⟩ ([(("k.rs").data, "x")], [])
        (("c k.rs").data, ⟨0, [(("k.rs").data, "y")], ⟨1, 0, 0, 0⟩⟩)).2
      = Event.accepted ⟨1, 0, 0, 0⟩ :=
  C5_anomalous_improvement_kept ⟨10, 0, 0, 0⟩ ([(("k.rs").data, "x")], [])
    (("c k.rs").data) ⟨0, [(("k.rs").data, "y")], ⟨1, 0, 0, 0⟩⟩
    (by decide) rfl (by decide) (by decide) (by decide) (by decide)

/-! ## Claim C6 -/

/-- C6 counterexample: the claim that on a nonzero exit status "the
command's target files are restored from the per-command backup" is FALSE.
With the backup holding "ok" and the failed invocation leaving "CORRUPT" on
disk, the loop continues with the corrupted content: no defensive restore
is performed (sed.py lines 193-195 merely `continue`). -/
theorem C6_defensive_restore_fails :
    (processOne ⟨0, 0, 0, 0⟩ ([(("f.rs").data, "ok")], [])
        (("c f.rs").data, ⟨1, [(("f.rs").data, "CORRUPT")], ⟨0, 0, 0, 0⟩⟩)).2
      = Event.applyFailed ∧
    fsLookup (processOne ⟨0, 0, 0, 0⟩ ([(("f.rs").data, "ok")], [])
        (("c f.rs").data,
          ⟨1, [(("f.rs").data, "CORRUPT")], ⟨0, 0, 0, 0⟩⟩)).1.1
      (("f.rs").data) = some ("CORRUPT") ∧
    fsLookup ([(("f.rs").data, "ok")]) (("f.rs").data) = some ("ok") ∧
    some ("CORRUPT") ≠ some ("ok") := by decide

/-- C6 (amended): a command whose invocation exits nonzero is skipped — no
re-measurement, no accept/revert decision — its per-command backup is
written, but the working tree is left exactly as the failed tool left it;
the backup is NOT restored. -/
theorem C6_apply_failure_no_restore (init : Measurement) (st : Fs × Fs)
    (cmd : List Char) (io : CmdIO)
    (h1 : targetsOf st.1 cmd ≠ []) (h2 : io.retcode ≠ 0) :
    processOne init st (cmd, io)
      = ((io.fsAfter, writeBackups st.1 st.2 (targetsOf st.1 cmd)),
          Event.applyFailed) := by
  simp [processOne, h1, h2]

/-- Witness for C6 (amended) at a concrete failing invocation. -/
theorem C6_apply_failure_no_restore_witness :
    processOne ⟨0, 0, 0, 0⟩ ([(("m.rs").data, "ok")], [])
        (("c m.rs").data, ⟨1, [(("m.rs").data, "BAD")], ⟨0, 0, 0, 0⟩⟩)
      = (([(("m.rs").data, "BAD")],
          writeBackups ([(("m.rs").data, "ok")]) ([])
            (targetsOf ([(("m.rs").data, "ok")]) (("c m.rs").data))),
          Event.applyFailed) :=
  C6_apply_failure_no_restore ⟨0, 0, 0, 0⟩ ([(("m.rs").data, "ok")], [])
    (("c m.rs").data) ⟨1, [(("m.rs").data, "BAD")], ⟨0, 0, 0, 0⟩⟩
    (by decide) (by decide)

/-! ## Claim C7 -/

/-- C7: the compile-failure summary line is parsed by the summary rule
first and then skipped, so its own leading "error:" token is not also
counted: the result is exactly 3 errors and 2 warnings, not 4 errors. -/
theorem C7_summary_line_precedence :
    parse_cargo_output
      ("error: could not compile `demo`, due to 3 previous errors; 2 warnings emitted")
      = (3, 2) := by decide

/-! ## Claim C8 -/

/-- C8 counterexample: the claim that a standalone "N warnings emitted"
line adds N to the warning count is FALSE: the parser has no such rule, and
the input consisting only of the line "3 warnings emitted" parses to 0
errors and 0 warnings, not 3 warnings. -/
theorem C8_standalone_warnings_not_counted :
    parse_cargo_output ("3 warnings emitted") = (0, 0) ∧
    (parse_cargo_output ("3 warnings emitted")).2 ≠ 3 := by decide

/-- A character is a recognized digit exactly when its code point lies in
the ASCII digit range. -/
theorem digitVal_isSome (c : Char) :
    (digitVal c).isSome = true ↔ 48 ≤ c.toNat ∧ c.toNat ≤ 57 := by
  by_cases h : 48 ≤ c.toNat ∧ c.toNat ≤ 57
  · simp [digitVal, h]
  · simp [digitVal, h]

/-- A digit never case-insensitively matches a lowercase letter. -/
theorem lowEq_digit_letter (d c : Char) (h1 : 48 ≤ d.toNat)
    (h2 : d.toNat ≤ 57) (hc : 97 ≤ c.toNat) : lowEq d c = false := by
  have hne : (d == c) = false := by
    rw [beq_eq_false_iff_ne]
    intro h
    subst h
    omega
  have h32 : (d.toNat + 32 == c.toNat) = false := by
    rw [beq_eq_false_iff_ne]
    omega
  simp [lowEq, hne, h32]

/-- A digit is not Python whitespace. -/
theorem isPySpace_digit (d : Char) (h1 : 48 ≤ d.toNat) :
    isPySpace d = false := by
  have hs : d ≠ ' ' := fun h => absurd (h ▸ h1) (by decide)
  have ht : d ≠ '\t' := fun h => absurd (h ▸ h1) (by decide)
  have hn : d ≠ '\n' := fun h => absurd (h ▸ h1) (by decide)
  have hr : d ≠ '\r' := fun h => absurd (h ▸ h1) (by decide)
  have hv : d ≠ '\x0b' := fun h => absurd (h ▸ h1) (by decide)
  have hf : d ≠ '\x0c' := fun h => absurd (h ▸ h1) (by decide)
  simp [isPySpace, hs, ht, hn, hr, hv, hf]

/-- The compile-failure summary pattern never matches a line beginning with
a digit: its first element is the (case-insensitive) literal "error:". -/
theorem compileFailMatch_digit_start (d : Char) (rest : List Char)
    (h1 : 48 ≤ d.toNat) (h2 : d.toNat ≤ 57) :
    compileFailMatch (d :: rest) = none := by
  have he : lowEq d 'e' = false :=
    lowEq_digit_letter d 'e' h1 h2 (by decide)
  have hdata : ("error:").data = 'e' :: ('r' :: 'r' :: 'o' :: 'r' :: ':' :: []) := rfl
  simp [compileFailMatch, hdata, dropLitCI, he]

/-- Neither individual-line pattern matches a line beginning with a digit:
after dropping no leading whitespace, the case-sensitive keyword (whose
first character is a lowercase letter) fails immediately. -/
theorem indivMatch_digit_start (c : Char) (lt : List Char) (hc : 97 ≤ c.toNat)
    (d : Char) (rest : List Char) (h1 : 48 ≤ d.toNat) (h2 : d.toNat ≤ 57) :
    indivMatch (c :: lt) (d :: rest) = false := by
  have hsp : isPySpace d = false := isPySpace_digit d h1
  have hne : d ≠ c := by
    intro h
    subst h
    omega
  simp [indivMatch, List.dropWhile, hsp, dropLitCS, hne]

/-- A newline-free text is a single line. -/
theorem splitLinesAux_no_newline (l : List Char) :
    ∀ acc, (∀ c ∈ l, c ≠ '\n') → splitLinesAux l acc = [acc.reverse ++ l] := by
  induction l with
  | nil =>
    intro acc h
    simp [splitLinesAux]
  | cons c t ih =>
    intro acc h
    have hc : c ≠ '\n' := h c (List.mem_cons_self c t)
    simp only [splitLinesAux, if_neg hc]
    rw [ih (c :: acc) (fun x hx => h x (List.mem_cons_of_mem c hx))]
    simp

/-- A line that begins with a decimal digit and contains no newline parses
to nothing: it matches neither the compile-failure summary pattern nor
either individual-line pattern. -/
theorem parse_single_digit_line (d : Char) (rest : List Char)
    (h1 : 48 ≤ d.toNat) (h2 : d.toNat ≤ 57)
    (hrest : ∀ c ∈ rest, c ≠ '\n') :
    parse_cargo_output (String.mk (d :: rest)) = (0, 0) := by
  have hnl : ∀ c ∈ d :: rest, c ≠ '\n' := by
    intro c hc
    rcases List.mem_cons.mp hc with rfl | hm
    · intro hEq
      rw [hEq] at h1
      exact absurd h1 (by decide)
    · exact hrest c hm
  have hsplit : splitLines (d :: rest) = [d :: rest] := by
    simpa [splitLines] using splitLinesAux_no_newline (d :: rest) [] hnl
  have hcf : compileFailMatch (d :: rest) = none :=
    compileFailMatch_digit_start d rest h1 h2
  have hie : indivMatch (('e' : Char) :: 'r' :: 'r' :: 'o' :: 'r' :: ':' :: [])
      (d :: rest) = false :=
    indivMatch_digit_start 'e' _ (by decide) d rest h1 h2
  have hieD : indivMatch (("error:").data) (d :: rest) = false := hie
  have hiw : indivMatch
      (('w' : Char) :: 'a' :: 'r' :: 'n' :: 'i' :: 'n' :: 'g' :: ':' :: [])
      (d :: rest) = false :=
    indivMatch_digit_start 'w' _ (by decide) d rest h1 h2
  have hiwD : indivMatch (("warning:").data) (d :: rest) = false := hiw
  unfold parse_cargo_output
  rw [show (String.mk (d :: rest)).data = d :: rest from rfl, hsplit]
  simp [hcf, hie, hieD, hiw, hiwD]

/-- C8 (amended): no standalone warnings-emitted rule exists — for EVERY
nonempty string of decimal digits N, the input consisting only of the bare
line "N warnings emitted" parses to 0 errors and 0 warnings; nothing is
added to the warning count. -/
theorem C8_no_standalone_warnings_rule (ds : List Char) (h1 : ds ≠ [])
    (h2 : ∀ c ∈ ds, (digitVal c).isSome = true) :
    parse_cargo_output (String.mk (ds ++ (" warnings emitted").data))
      = (0, 0) := by
  obtain ⟨d, ds2, rfl⟩ := List.exists_cons_of_ne_nil h1
  have hd := (digitVal_isSome d).mp (h2 d (List.mem_cons_self d ds2))
  have hrest : ∀ c ∈ ds2 ++ (" warnings emitted").data, c ≠ '\n' := by
    intro c hc hEq
    subst hEq
    rcases List.mem_append.mp hc with hm | hm
    · exact absurd
        ((digitVal_isSome _).mp (h2 _ (List.mem_cons_of_mem d hm))).1
        (by decide)
    · exact absurd hm (by decide)
  exact parse_single_digit_line d (ds2 ++ (" warnings emitted").data)
    hd.1 hd.2 hrest

/-- Witness for C8 (amended) at the digit string "3". -/
theorem C8_no_standalone_warnings_rule_witness :
    parse_cargo_output (String.mk ((("3").data) ++ (" warnings emitted").data))
      = (0, 0) :=
  C8_no_standalone_warnings_rule (("3").data) (by decide) (by decide)

/-! ## Claim C9 -/

/-- C9: warning counts never influence decisions.  Two runs whose
measurements agree on every error count (initial, per-command and final)
and whose commands behave identically, but whose warning counts differ
arbitrarily, produce the same sequence of per-command decision kinds, the
same final-rollback decision, and the same final tree. -/
theorem C9_warnings_never_influence_decisions (fs0 : Fs)
    (cmds : List (List Char)) (ios iosB : List CmdIO)
    (initMeas initB finalMeas finalB : Measurement)
    (hios : List.Forall₂ ioAgrees ios iosB)
    (hi : initMeas.checkErrors = initB.checkErrors ∧
          initMeas.testErrors = initB.testErrors)
    (hf : finalMeas.checkErrors = finalB.checkErrors ∧
          finalMeas.testErrors = finalB.testErrors) :
    (process_sed_commands fs0 cmds ios initMeas finalMeas).events.map eventKind
      = (process_sed_commands fs0 cmds iosB initB finalB).events.map eventKind ∧
    (process_sed_commands fs0 cmds ios initMeas finalMeas).rolledBack
      = (process_sed_commands fs0 cmds iosB initB finalB).rolledBack ∧
    (process_sed_commands fs0 cmds ios initMeas finalMeas).finalFs
      = (process_sed_commands fs0 cmds iosB initB finalB).finalFs := by
  obtain ⟨h1, h2⟩ :=
    processCommands_agree initMeas initB hi cmds ios iosB (fs0, []) hios
  have hroll : decideMeas initMeas finalMeas = decideMeas initB finalB := by
    simp [decideMeas, hi.1, hi.2, hf.1, hf.2]
  refine ⟨h2, ?_, ?_⟩
  · simp [process_sed_commands, hroll]
  · simp [process_sed_commands, hroll, h1]

/-- Witness for C9: a one-command run measured with nonzero warning counts
versus the same run with all warnings zeroed. -/
theorem C9_warnings_never_influence_decisions_witness :
    (process_sed_commands ([(("f.rs").data, "x")]) ([("c f.rs").data])
        ([⟨0, [(("f.rs").data, "y")], ⟨0, 5, 0, 7⟩⟩])
        ⟨0, 9, 0, 3⟩ ⟨0, 4, 0, 4⟩).events.map eventKind
      = (process_sed_commands ([(("f.rs").data, "x")]) ([("c f.rs").data])
          ([⟨0, [(("f.rs").data, "y")], ⟨0, 0, 0, 0⟩⟩])
          ⟨0, 0, 0, 0⟩ ⟨0, 0, 0, 0⟩).events.map eventKind ∧
    (process_sed_commands ([(("f.rs").data, "x")]) ([("c f.rs").data])
        ([⟨0, [(("f.rs").data, "y")], ⟨0, 5, 0, 7⟩⟩])
        ⟨0, 9, 0, 3⟩ ⟨0, 4, 0, 4⟩).rolledBack
      = (process_sed_commands ([(("f.rs").data, "x")]) ([("c f.rs").data])
          ([⟨0, [(("f.rs").data, "y")], ⟨0, 0, 0, 0⟩⟩])
          ⟨0, 0, 0, 0⟩ ⟨0, 0, 0, 0⟩).rolledBack ∧
    (process_sed_commands ([(("f.rs").data, "x")]) ([("c f.rs").data])
        ([⟨0, [(("f.rs").data, "y")], ⟨0, 5, 0, 7⟩⟩])
        ⟨0, 9, 0, 3⟩ ⟨0, 4, 0, 4⟩).finalFs
      = (process_sed_commands ([(("f.rs").data, "x")]) ([("c f.rs").data])
          ([⟨0, [(("f.rs").data, "y")], ⟨0, 0, 0, 0⟩⟩])
          ⟨0, 0, 0, 0⟩ ⟨0, 0, 0, 0⟩).finalFs :=
  C9_warnings_never_influence_decisions ([(("f.rs").data, "x")])
    ([("c f.rs").data])
    ([⟨0, [(("f.rs").data, "y")], ⟨0, 5, 0, 7⟩⟩])
    ([⟨0, [(("f.rs").data, "y")], ⟨0, 0, 0, 0⟩⟩])
    ⟨0, 9, 0, 3⟩ ⟨0, 0, 0, 0⟩ ⟨0, 4, 0, 4⟩ ⟨0, 0, 0, 0⟩
    (List.Forall₂.cons (by simp [ioAgrees]) List.Forall₂.nil)
    (by decide) (by decide)

/-! ## Claim C10 -/

/-- C10: a command string none of whose whitespace-delimited tokens (after
stripping trailing commas and semicolons) names an existing file is skipped
entirely: the working tree and the shared temporary backup directory are
left unchanged, no backup is written, and the outcome is
`skippedNoTargets` regardless of what the external oracle would have done
— the command is never executed and no re-measurement happens. -/
theorem C10_no_target_skip (init : Measurement) (st : Fs × Fs)
    (cmd : List Char) (io : CmdIO)
    (h : targetsOf st.1 cmd = []) :
    processOne init st (cmd, io) = (st, Event.skippedNoTargets) := by
  simp [processOne, h]

/-- Witness for C10 at a command naming no existing file. -/
theorem C10_no_target_skip_witness :
    processOne ⟨1, 2, 3, 4⟩ ([(("f.rs").data, "x")], [])
        (("sed -i s/a/b/ nothing.rs").data,
          ⟨0, [(("f.rs").data, "y")], ⟨9, 9, 9, 9⟩⟩)
      = (([(("f.rs").data, "x")], []), Event.skippedNoTargets) :=
  C10_no_target_skip ⟨1, 2, 3, 4⟩ ([(("f.rs").data, "x")], [])
    (("sed -i s/a/b/ nothing.rs").data)
    ⟨0, [(("f.rs").data, "y")], ⟨9, 9, 9, 9⟩⟩ (by decide)
